import Mathlib

/-!
Verification model of the order-execution and position-protection core of the
`tony_binance` trading bot (sources: `binance_handler.py`, `tp_sl_manager.py`,
`position_validator.py`, `app.py`).

Modelling conventions:
* Python floats are idealised as exact rationals (`ℚ`); Python's `round` is
  round-half-to-even.
* String manipulation is re-implemented structurally over `List Char` so that
  every model function is fully computable by the kernel.
* Exchange I/O (balance, price, klines, position mode, order acceptance) is an
  explicit environment record; the flow models return the list of order
  payloads the code constructs and submits, together with the structured
  result value of the Python function.
* Logging is dropped; `try/except` blocks become `Except`-valued branches.
-/

/-! ## String primitives (structural re-implementations of Python `str` ops) -/

/-- ASCII uppercase of one character (`str.upper`). -/
def charUpper (c : Char) : Char :=
  if 97 ≤ c.toNat ∧ c.toNat ≤ 122 then Char.ofNat (c.toNat - 32) else c

/-- ASCII lowercase of one character (`str.lower`). -/
def charLower (c : Char) : Char :=
  if 65 ≤ c.toNat ∧ c.toNat ≤ 90 then Char.ofNat (c.toNat + 32) else c

/-- `str.upper()`. -/
def supper (s : String) : String := String.mk (s.data.map charUpper)

/-- `str.lower()`. -/
def slower (s : String) : String := String.mk (s.data.map charLower)

/-- Whitespace test for `str.strip()`. -/
def isSpaceChar (c : Char) : Bool :=
  c == ' ' || c == '\t' || c == '\n' || c == '\r'

/-- `str.strip()`. -/
def strim (s : String) : String :=
  String.mk (((s.data.dropWhile isSpaceChar).reverse.dropWhile isSpaceChar).reverse)

/-- Does the second list start with the first one? -/
def firstMatches : List Char → List Char → Bool
  | [], _ => true
  | _ :: _, [] => false
  | p :: ps, c :: cs => p == c && firstMatches ps cs

/-- `str.endswith(suffix)`. -/
def sEndsWith (s suffix : String) : Bool :=
  firstMatches suffix.data.reverse s.data.reverse

/-- Fuel-bounded substring replacement (`str.replace(pat, rep)` for a
non-empty pattern; the fuel is the string length, which always suffices). -/
def replaceFuel : ℕ → List Char → List Char → List Char → List Char
  | 0, _, _, l => l
  | _ + 1, _, _, [] => []
  | n + 1, pat, rep, c :: rest =>
    if pat ≠ [] ∧ firstMatches pat (c :: rest) then
      rep ++ replaceFuel n pat rep ((c :: rest).drop pat.length)
    else c :: replaceFuel n pat rep rest

/-- `str.replace(pat, rep)`. -/
def sReplace (s pat rep : String) : String :=
  String.mk (replaceFuel s.data.length pat.data rep.data s.data)

/-- `str.split(sep)` for a one-character separator (helper). -/
def splitCharAux (sep : Char) : List Char → List Char → List (List Char)
  | acc, [] => [acc.reverse]
  | acc, c :: rest =>
    if c = sep then acc.reverse :: splitCharAux sep [] rest
    else splitCharAux sep (c :: acc) rest

/-- `str.split(sep)` for a one-character separator. -/
def sSplitChar (sep : Char) (s : String) : List String :=
  (splitCharAux sep [] s.data).map String.mk

/-- Strip all trailing `%` characters (`str.rstrip('%')`). -/
def rstripPercent (s : String) : String :=
  String.mk ((s.data.reverse.dropWhile (· = '%')).reverse)

/-! ## Python numeric primitives -/

/-- Python's `round` to an integer: round half to even (banker's rounding). -/
def roundHalfEven (q : ℚ) : ℤ :=
  let f := ⌊q⌋
  let r := q - (f : ℚ)
  if r < 1/2 then f
  else if 1/2 < r then f + 1
  else if f % 2 = 0 then f else f + 1

/-- Python's `round(x, n)` on an idealised (exact) float. -/
def roundToDigits (q : ℚ) (n : ℕ) : ℚ :=
  (roundHalfEven (q * 10 ^ n) : ℚ) / 10 ^ n

/-- A Python scalar as it arrives in a JSON webhook payload. -/
inductive PyVal where
  | num (q : ℚ)
  | str (s : String)
deriving DecidableEq, Repr

/-- Numeric value of a digit list (helper for `parseDecimal`). -/
def digitsNat (l : List Char) : ℕ :=
  l.foldl (fun a c => a * 10 + (c.toNat - 48)) 0

/-- Numeric value of a digit list, as a rational. -/
def digitsVal (l : List Char) : ℚ := (digitsNat l : ℚ)

/-- Lexical part of Python's `float(str)`: sign flag, integer digits and
fractional digits of a decimal literal; `Option.none` on any other shape. -/
def parseParts (s : String) : Option (Bool × List Char × List Char) :=
  let t := (strim s).data
  let neg : Bool := match t with | '-' :: _ => true | _ => false
  let body : List Char := match t with
    | '-' :: r => r
    | '+' :: r => r
    | r => r
  match splitCharAux '.' [] body with
  | [ip] =>
    if ip.length > 0 && ip.all Char.isDigit then some (neg, ip, [])
    else Option.none
  | [ip, fp] =>
    if (ip.length + fp.length > 0) && ip.all Char.isDigit && fp.all Char.isDigit then
      some (neg, ip, fp)
    else Option.none
  | _ => Option.none

/-- The decimal fragment of Python's `float(str)` builtin: optional sign,
digits with an optional fractional part (exponent/inf/nan forms, which never
occur in the repository's payloads, are omitted).  `"1.5"` parses to `3/2`;
`"1.5%"` fails. -/
def parseDecimal (s : String) : Option ℚ :=
  match parseParts s with
  | Option.none => Option.none
  | some (neg, ip, fp) =>
    some ((if neg then -1 else 1) * (digitsVal ip + digitsVal fp / 10 ^ fp.length))

/-- Python's `float(x)` applied to a payload scalar. -/
def pyFloat : PyVal → Except String ℚ
  | .num q => .ok q
  | .str s =>
    match parseDecimal s with
    | some q => .ok q
    | Option.none => .error "could not convert string to float"

/-- Python truthiness of a payload scalar (`0` and `""` are falsy). -/
def pyTruthy : PyVal → Bool
  | .num q => q != 0
  | .str s => s != ""

/-! ## TPSLManager (`tp_sl_manager.py`) -/

/-- Hard-coded default TP multiplier (`TPSLManager.__init__`). -/
def default_tp_multiplier : ℚ := 5/2

/-- Hard-coded default SL multiplier (`TPSLManager.__init__`). -/
def default_sl_multiplier : ℚ := 3

/-- The per-symbol price-step table of `TPSLManager._round_to_price_step`. -/
def price_steps : List (String × ℚ) :=
  [("BTCUSDT", 1/10), ("BTCUSDC", 1/10),
   ("ETHUSDT", 1/100), ("ETHUSDC", 1/100),
   ("SOLUSDT", 1/100), ("SOLUSDC", 1/100),
   ("BNBUSDT", 1/100), ("BNBUSDC", 1/100),
   ("XRPUSDT", 1/10000), ("XRPUSDC", 1/10000),
   ("ADAUSDT", 1/10000), ("ADAUSDC", 1/10000),
   ("DOTUSDT", 1/1000), ("XLMUSDT", 1/100000),
   ("IMXUSDT", 1/10000), ("DOGEUSDT", 1/1000000),
   ("INJUSDT", 1/1000), ("LDOUSDT", 1/10000),
   ("ARBUSDT", 1/10000), ("ARBUSDC", 1/10000),
   ("UNIUSDT", 1/1000), ("UNIUSDC", 1/1000),
   ("FETUSDT", 1/10000), ("AAVEUSDC", 1/100),
   ("BCHUSDC", 1/100), ("AVAXUSDC", 1/1000),
   ("LINKUSDC", 1/1000), ("CRVUSDC", 1/10000),
   ("TIAUSDC", 1/10000), ("FILUSDC", 1/1000)]

/-- Association-list lookup (Python `dict.get` over string keys). -/
def alookupQ : List (String × ℚ) → String → Option ℚ
  | [], _ => Option.none
  | (k', v) :: rest, k => if k' = k then some v else alookupQ rest k

/-- `price_steps.get(symbol.upper(), 0.01)`: the resolved price step, with the
default coarse step `0.01` for unknown symbols. -/
def getPriceStep (symbol : String) : ℚ :=
  (alookupQ price_steps (supper symbol)).getD (1/100)

/-- `TPSLManager._round_to_price_step`: snap a price to the symbol's price
step (round half to even), re-round to the step's decimal count, and floor the
result at one step if it came out non-positive. -/
def round_to_price_step (symbol : String) (price : ℚ) : ℚ :=
  let step := getPriceStep symbol
  let r0 := (roundHalfEven (price / step) : ℚ) * step
  let r1 :=
    if step ≥ 1 then roundToDigits r0 1
    else if step ≥ 1/100 then roundToDigits r0 2
    else if step ≥ 1/1000 then roundToDigits r0 3
    else if step ≥ 1/10000 then roundToDigits r0 4
    else if step ≥ 1/100000 then roundToDigits r0 5
    else roundToDigits r0 6
  if r1 ≤ 0 then step else r1

/-- `TPSLManager._extract_coin_type`: lowercase key used for config lookups
(USDC pairs keep the suffix; USDT pairs strip it). -/
def extract_coin_type (symbol : String) : String :=
  let clean := strim (supper symbol)
  if sEndsWith clean "USDC" then slower clean
  else slower (sReplace clean "USDT" "")

/-- Multiplier resolution in `calculate_tp_sl_prices`:
`m = config.get(key, default); m = float(m) if m else default`
(a missing or falsy — i.e. zero — configured value falls back to the default). -/
def resolveMultiplier (config : String → Option ℚ) (key : String) (dflt : ℚ) : ℚ :=
  match config key with
  | Option.none => dflt
  | some v => if v = 0 then dflt else v

/-- `TPSLManager.calculate_tp_sl_prices`: ATR-scaled TP/SL price derivation
followed by a price-step snap; raises (`.error`) on an unknown position side
or a non-positive rounded price. -/
def calculate_tp_sl_prices (config : String → Option ℚ) (coin_symbol : String)
    (current_price atr_value : ℚ) (position_side : String) : Except String (ℚ × ℚ) :=
  let coin_type := extract_coin_type coin_symbol
  let tp_multiplier := resolveMultiplier config (coin_type ++ "_atr_tp_multiplier") default_tp_multiplier
  let sl_multiplier := resolveMultiplier config (coin_type ++ "_atr_sl_multiplier") default_sl_multiplier
  let ps := slower position_side
  let raw : Except String (ℚ × ℚ) :=
    if ps = "long" then
      .ok (current_price + atr_value * tp_multiplier, current_price - atr_value * sl_multiplier)
    else if ps = "short" then
      .ok (current_price - atr_value * tp_multiplier, current_price + atr_value * sl_multiplier)
    else .error "Invalid position side"
  match raw with
  | .error e => .error e
  | .ok (tp0, sl0) =>
    let tp := round_to_price_step coin_symbol tp0
    let sl := round_to_price_step coin_symbol sl0
    if tp ≤ 0 ∨ sl ≤ 0 then .error "Invalid calculated prices"
    else .ok (tp, sl)

/-- `TPSLManager.validate_tp_sl_logic`: directional sanity check of a TP/SL
pair against the entry price.  Side strings other than (case-insensitive)
`long`/`short` fall through both branches and return `True`. -/
def validate_tp_sl_logic (_coin_symbol position_side : String)
    (entry_price tp_price sl_price : ℚ) : Bool :=
  let ps := slower position_side
  if ps = "long" then
    if tp_price ≤ entry_price then false
    else if sl_price ≥ entry_price then false
    else true
  else if ps = "short" then
    if tp_price ≥ entry_price then false
    else if sl_price ≤ entry_price then false
    else true
  else true

/-! ## Quantity precision (`BinanceHandler._round_quantity_to_precision`) -/

/-- The `LOT_SIZE` exchange filter for a symbol. -/
structure LotFilter where
  stepSize : ℚ
  minQty : ℚ
  maxQty : ℚ
deriving DecidableEq, Repr

/-- Search for the least decimal count that writes a denominator exactly
(helper for `stepPrecision`). -/
def stepPrecisionAux : ℕ → ℕ → ℕ → ℕ
  | 0, _, _ => 3
  | fuel + 1, n, den => if 10 ^ n % den = 0 then n else stepPrecisionAux fuel (n + 1) den

/-- Decimal count derived from `str(step_size)` in the source: the number of
decimals needed to write the step exactly (default `3` for steps that are not
decimal fractions, which does not occur for real exchange filters). -/
def stepPrecision (step : ℚ) : ℕ :=
  stepPrecisionAux 13 0 step.den

/-- `BinanceHandler._round_quantity_to_precision`: snap a quantity to the
symbol's lot step and clamp it into `[minQty, maxQty]`.  A quantity that
rounds below the minimum is raised to the minimum (the source logs
"below minimum ..., using minimum"); `Option.none` stands for the
symbol-not-found / filter-not-found fallback (`round(quantity, 3)`). -/
def round_quantity_to_precision (lot : Option LotFilter) (quantity : ℚ) : ℚ :=
  match lot with
  | Option.none => roundToDigits quantity 3
  | some f =>
    let precision := stepPrecision f.stepSize
    let q1 := (roundHalfEven (quantity / f.stepSize) : ℚ) * f.stepSize
    let q2 := roundToDigits q1 precision
    let q3 := if q2 < f.minQty then f.minQty else q2
    if q3 > f.maxQty then f.maxQty else q3

/-! ## ATR (`BinanceHandler.get_atr`) -/

/-- One kline, reduced to the fields the ATR computation reads. -/
structure Candle where
  high : ℚ
  low : ℚ
  close : ℚ
deriving DecidableEq, Repr

/-- True ranges of the candles after the first one:
`max(high - low, |high - prevClose|, |low - prevClose|)`. -/
def trueRanges (prevClose : ℚ) : List Candle → List ℚ
  | [] => []
  | c :: cs =>
    max (c.high - c.low) (max |c.high - prevClose| |c.low - prevClose|) :: trueRanges c.close cs

/-- `BinanceHandler.get_atr`, with the klines request replaced by the list of
candles the exchange returned.  Clamps an invalid period to 14, returns `0`
when fewer than `period + 10` candles are available, computes per-candle true
range (the first candle has no previous close — `NaN` in pandas — and its TR
degrades to `high - low`, matching Python `max` with `NaN` operands), clips
negative TRs to `0`, smooths with Wilder's recurrence
`atr_i = (1 - 1/period) * atr_{i-1} + (1/period) * tr_i` (pandas
`ewm(alpha=1/period, adjust=False)`), and rejects a non-positive final value
as `0`. -/
def get_atr (klines : List Candle) (period : ℤ) : ℚ :=
  let period := if period < 1 ∨ period > 100 then 14 else period
  let min_required := period + 10
  match klines with
  | [] => 0
  | c₀ :: rest =>
    if (klines.length : ℤ) < min_required then 0
    else
      let tr0 := max (c₀.high - c₀.low) 0
      let trs := (trueRanges c₀.close rest).map (fun t => max t 0)
      let α : ℚ := 1 / (period : ℚ)
      let atr := trs.foldl (fun a t => (1 - α) * a + α * t) tr0
      if atr ≤ 0 then 0 else atr

/-! ## Order payloads -/

/-- A futures order request as assembled by the handler (union of the fields
used by entry, TP, SL, trailing-stop and fallback-stop payloads). -/
structure OrderParams where
  symbol : String
  side : String
  type : String
  quantity : Option ℚ := Option.none
  stopPrice : Option ℚ := Option.none
  closePosition : Bool := false
  callbackRate : Option ℚ := Option.none
  activationPrice : Option ℚ := Option.none
  workingType : Option String := Option.none
  positionSide : Option String := Option.none
deriving DecidableEq, Repr

/-- The `if is_hedge_mode: params['positionSide'] = position_side` idiom that
guards every payload in the handler. -/
def addPositionSide (is_hedge_mode : Bool) (position_side : String)
    (o : OrderParams) : OrderParams :=
  if is_hedge_mode then { o with positionSide := some position_side } else o

/-- `'LONG' if direction == 'long' else 'SHORT'`. -/
def directionPositionSide (direction : String) : String :=
  if direction = "long" then "LONG" else "SHORT"

/-! ## TP/SL placement phase of `BinanceHandler.place_order` (lines 1270-1381) -/

/-- The protective-order phase of `place_order` for an `open` action: skipped
for an invalid entry price; aborted (ValueError, caught by the surrounding
`except`) when ATR is non-positive, when price calculation raises, or when
`validate_tp_sl_logic` fails; otherwise it submits a `TAKE_PROFIT_MARKET` and
a `STOP_MARKET` close order.  Returns the protective payloads submitted. -/
def tp_sl_phase (config : String → Option ℚ) (atr_period : ℤ) (klines : List Candle)
    (symbol direction : String) (current_price : ℚ)
    (is_hedge_mode : Bool) (position_side : String) : List OrderParams :=
  if current_price ≤ 0 then []
  else
    let atr_value := get_atr klines atr_period
    if atr_value ≤ 0 then []
    else
      match calculate_tp_sl_prices config symbol current_price atr_value direction with
      | .error _ => []
      | .ok (tp_price, sl_price) =>
        if validate_tp_sl_logic symbol direction current_price tp_price sl_price = false then []
        else
          let tp_side := if direction = "long" then "SELL" else "BUY"
          let tp_price_rounded := round_to_price_step symbol tp_price
          let sl_price_rounded := round_to_price_step symbol sl_price
          [addPositionSide is_hedge_mode position_side
            { symbol := symbol, side := tp_side, type := "TAKE_PROFIT_MARKET",
              stopPrice := some tp_price_rounded, closePosition := true },
           addPositionSide is_hedge_mode position_side
            { symbol := symbol, side := tp_side, type := "STOP_MARKET",
              stopPrice := some sl_price_rounded, closePosition := true }]

/-! ## `BinanceHandler.place_order` (standard flow) -/

/-- Exchange-side observations consumed by one `place_order` call. -/
structure ExchangeEnv where
  available_balance : ℚ
  current_price : ℚ
  lot : Option LotFilter
  is_hedge_mode : Bool
  klines : List Candle
  entry_fill_price : ℚ
deriving Repr

/-- Result of a flow model: the order payloads submitted to the exchange, in
order, and the structured result of the Python function. -/
structure FlowResult where
  orders_sent : List OrderParams
  result : Except String Unit
deriving Repr

/-- `BinanceHandler.place_order` from the balance read (line 1164) onward:
side parsing, the zero-balance substitution, quantity computation and lot
rounding, the entry order, and the TP/SL phase.  Pre-order steps that build
no payload (trading-enabled check, leverage/margin setup, position
validation) are modelled separately; `entry_fill_price` stands for the
avgPrice/market-price fallback chain that determines the entry price used
for TP/SL. -/
def place_order_flow (config : String → Option ℚ) (atr_period : ℤ)
    (leverage order_size_percentage : ℚ) (env : ExchangeEnv)
    (symbol side order_type : String) (quantity? : Option ℚ) : FlowResult :=
  match sSplitChar '_' side with
  | [action, direction] =>
    let available_balance :=
      if env.available_balance ≤ 0 then 1000 else env.available_balance
    let qres : Except String ℚ :=
      match quantity? with
      | some q => .ok q
      | Option.none =>
        if env.current_price ≤ 0 then .error "Failed to get current price"
        else .ok (available_balance * (order_size_percentage / 100) * leverage / env.current_price)
    match qres with
    | .error e => ⟨[], .error e⟩
    | .ok raw_quantity =>
      let quantity := round_quantity_to_precision env.lot raw_quantity
      let binance_side :=
        if action = "open" then (if direction = "long" then "BUY" else "SELL")
        else (if direction = "long" then "SELL" else "BUY")
      let position_side := directionPositionSide direction
      let entry := addPositionSide env.is_hedge_mode position_side
        { symbol := symbol, side := binance_side, type := order_type, quantity := some quantity }
      let protective :=
        if action = "open" then
          tp_sl_phase config atr_period env.klines symbol direction
            env.entry_fill_price env.is_hedge_mode position_side
        else []
      ⟨entry :: protective, .ok ()⟩
  | _ => ⟨[], .error "Invalid side format"⟩

/-! ## PositionValidator (`position_validator.py`) -/

/-- An exchange-reported position as read from the positions endpoint
(`positionAmt` is signed; string fields are typed here since they come from
the exchange, not from user input). -/
structure RawPosition where
  symbol : String
  positionSide : String
  positionAmt : ℚ
  entryPrice : ℚ := 0
  unrealizedProfit : ℚ := 0
  leverage : ℤ := 1
  marginType : String := "cross"
deriving DecidableEq, Repr

/-- A position after `PositionValidator._analyze_symbol_positions`. -/
structure AnalyzedPosition where
  symbol : String
  side : String
  size : ℚ
  entry_price : ℚ
  unrealized_pnl : ℚ
  leverage : ℤ
  margin_type : String
deriving DecidableEq, Repr

/-- `PositionValidator._analyze_symbol_positions`: keep the positions of the
given symbol with non-zero size, normalising the side to lowercase and the
size to `abs(positionAmt)`. -/
def analyze_symbol_positions (symbol : String) (current_positions : List RawPosition) :
    List AnalyzedPosition :=
  (current_positions.filter (fun p => p.symbol = symbol ∧ |p.positionAmt| > 0)).map
    (fun p =>
      { symbol := p.symbol, side := slower (supper p.positionSide), size := |p.positionAmt|,
        entry_price := p.entryPrice, unrealized_pnl := p.unrealizedProfit,
        leverage := p.leverage, margin_type := p.marginType })

/-- The `action_required` dict of a validation result. -/
inductive ActionRequired where
  | close_opposite (positions_to_close : List AnalyzedPosition) (new_direction : String)
  | close_positions (positions_to_close : List AnalyzedPosition)
deriving DecidableEq, Repr

/-- The `type` key of an `action_required` dict. -/
def ActionRequired.kind : ActionRequired → String
  | .close_opposite _ _ => "close_opposite"
  | .close_positions _ => "close_positions"

/-- A validation result dict. -/
structure ValidationResult where
  allowed : Bool
  reason : String
  action_required : Option ActionRequired
  existing_positions : List AnalyzedPosition := []
  conflicts : List AnalyzedPosition := []
deriving DecidableEq, Repr

/-- `PositionValidator` mutable state: the duplicate-order ledger (a dict
from `"{symbol}_{direction}_{action}"` to the last approved-request
timestamp) with its 5-second cooldown. -/
structure PositionValidator where
  recent_orders : List (String × ℚ)
deriving DecidableEq, Repr

/-- The fixed cooldown window (`self.order_cooldown = 5`). -/
def order_cooldown : ℚ := 5

/-- The ledger key `f"{symbol}_{direction}_{action}"`. -/
def orderKey (symbol direction action : String) : String :=
  symbol ++ "_" ++ direction ++ "_" ++ action

/-- `PositionValidator._check_duplicate_order`: `true` (allowed) unless the
key is in the ledger with a timestamp less than 5 seconds old. -/
def check_duplicate_order (v : PositionValidator) (symbol direction action : String)
    (now : ℚ) : Bool :=
  match alookupQ v.recent_orders (orderKey symbol direction action) with
  | some last_order_time => ¬ (now - last_order_time < order_cooldown)
  | Option.none => true

/-- `PositionValidator._record_order_request`: write the key's timestamp and
purge every ledger entry older than 60 seconds. -/
def record_order_request (v : PositionValidator) (symbol direction action : String)
    (now : ℚ) : PositionValidator :=
  let key := orderKey symbol direction action
  let updated := (key, now) :: v.recent_orders.filter (fun kv => kv.1 ≠ key)
  ⟨updated.filter (fun kv => ¬ (now - kv.2 > 60))⟩

/-- `PositionValidator._validate_open_position`: reject when a same-direction
position exists; on an opposite-direction position, reject when auto position
switch is disabled, otherwise approve with a `close_opposite` action listing
the opposing positions; approve unconditionally when no position exists. -/
def validate_open_position (symbol direction : String)
    (existing_positions : List AnalyzedPosition) (auto_position_switch : Bool) :
    ValidationResult :=
  let same_direction_positions :=
    existing_positions.filter (fun p => p.side = slower direction)
  let opposite_direction_positions :=
    existing_positions.filter (fun p => ¬ p.side = slower direction)
  if ¬ same_direction_positions.isEmpty then
    { allowed := false, reason := "Already have " ++ supper direction ++ " position for " ++ symbol,
      action_required := Option.none, conflicts := same_direction_positions }
  else if ¬ opposite_direction_positions.isEmpty then
    if ¬ auto_position_switch then
      { allowed := false, reason := "Auto position switch disabled",
        action_required := Option.none, conflicts := opposite_direction_positions }
    else
      { allowed := true, reason := "Auto position switch enabled",
        action_required := some (.close_opposite opposite_direction_positions direction) }
  else
    { allowed := true, reason := "No existing positions for " ++ symbol,
      action_required := Option.none }

/-- `PositionValidator._validate_close_position`: approve only when a
position in the requested direction exists, listing the matching positions. -/
def validate_close_position (symbol direction : String)
    (existing_positions : List AnalyzedPosition) : ValidationResult :=
  let matching_positions :=
    existing_positions.filter (fun p => p.side = slower direction)
  if matching_positions.isEmpty then
    { allowed := false, reason := "No " ++ supper direction ++ " position found for " ++ symbol,
      action_required := Option.none }
  else
    { allowed := true, reason := "Found positions to close",
      action_required := some (.close_positions matching_positions) }

/-- The action dispatch of `validate_position_request`: `open` and `close`
go to their validators, anything else is an invalid action. -/
def decide_request (symbol direction action : String)
    (symbol_positions : List AnalyzedPosition) (auto_position_switch : Bool) :
    ValidationResult :=
  if action = "open" then
    validate_open_position symbol direction symbol_positions auto_position_switch
  else if action = "close" then
    validate_close_position symbol direction symbol_positions
  else
    { allowed := false, reason := "Invalid action: " ++ action,
      action_required := Option.none }

/-- `PositionValidator.validate_position_request`: duplicate suppression,
position analysis, the open/close decision, and — only on approval — the
side-effecting ledger record.  Returns the result together with the updated
validator state (`now` stands for `time.time()`). -/
def validate_position_request (v : PositionValidator) (symbol direction action : String)
    (current_positions : List RawPosition) (auto_position_switch : Bool) (now : ℚ) :
    ValidationResult × PositionValidator :=
  if check_duplicate_order v symbol direction action now = false then
    ({ allowed := false, reason := "Duplicate order blocked", action_required := Option.none }, v)
  else
    let symbol_positions := analyze_symbol_positions symbol current_positions
    let result := decide_request symbol direction action symbol_positions auto_position_switch
    let result := { result with existing_positions := symbol_positions }
    if result.allowed then (result, record_order_request v symbol direction action now)
    else (result, v)

/-! ## Trailing-stop strategy (`BinanceHandler.place_trailing_stop_strategy`) -/

/-- The trailing-stop webhook payload (`data` dict); `Option.none` marks an
absent key. -/
structure TrailingPayload where
  symbol : String := ""
  side : String := ""
  action : String := "open"
  callbackRate : Option PyVal := Option.none
  activationPrice : Option PyVal := Option.none
  stopLoss : Option PyVal := Option.none
  workingType : Option String := Option.none
  quantity : Option PyVal := Option.none
deriving DecidableEq, Repr

/-- Parsed strategy inputs after STEP 1 of `place_trailing_stop_strategy`. -/
structure TrailingInputs where
  symbol : String
  direction : String
  trailing_side : String
  callback_rate : ℚ
  activation_price_input : Option ℚ
  stop_loss_price : Option ℚ
  working_type : String
deriving DecidableEq, Repr

/-- STEP 1 of `place_trailing_stop_strategy`: symbol normalisation, strict
`float` conversion of `callbackRate` / `activationPrice` / `stopLoss` (a
conversion failure rejects the request as "Invalid numeric values"), the
required-fields truthiness check (`callbackRate = 0` counts as missing), and
the BUY/SELL direction mapping.  The conversion applies `float` verbatim —
there is no `%`-stripping and no `[0.1, 5.0]` band check. -/
def trailing_parse (data : TrailingPayload) : Except String TrailingInputs :=
  let symbol := sReplace (sReplace (strim (supper data.symbol)) ".P" "") ".p" ""
  let entry_side_str := supper data.side
  match pyFloat (data.callbackRate.getD (.num 0)) with
  | .error _ => .error "Invalid numeric values"
  | .ok callback_rate =>
    let actRes : Except String (Option ℚ) :=
      match data.activationPrice with
      | Option.none => .ok Option.none
      | some v =>
        match pyFloat v with
        | .error _ => .error "Invalid numeric values"
        | .ok a => .ok (some a)
    match actRes with
    | .error e => .error e
    | .ok activation_price_input =>
      let slRes : Except String (Option ℚ) :=
        match data.stopLoss with
        | Option.none => .ok Option.none
        | some v =>
          if pyTruthy v then
            match pyFloat v with
            | .error _ => .error "Invalid numeric values"
            | .ok q => .ok (some q)
          else .ok Option.none
      match slRes with
      | .error e => .error e
      | .ok stop_loss_price =>
        let working_type := supper (data.workingType.getD "MARK_PRICE")
        if symbol = "" ∨ entry_side_str = "" ∨ callback_rate = 0 then
          .error "Missing required fields"
        else if entry_side_str = "BUY" then
          .ok ⟨symbol, "long", "SELL", callback_rate, activation_price_input,
               stop_loss_price, working_type⟩
        else if entry_side_str = "SELL" then
          .ok ⟨symbol, "short", "BUY", callback_rate, activation_price_input,
               stop_loss_price, working_type⟩
        else .error "Invalid entry side"

/-- STEP 2.5 of `place_trailing_stop_strategy`: resolve the activation and
fallback-stop prices.  A missing (or falsy, i.e. zero) activation input and a
missing stop loss are auto-calculated at entry ±2% / ∓3%; both are then
re-validated against the entry price and corrected back to the 2%/3% rule on
the wrong side. -/
def resolveActivationStop (direction : String) (entry_price : ℚ)
    (activation_price_input stop_loss_input : Option ℚ) : ℚ × ℚ :=
  let activation_price :=
    match activation_price_input with
    | some a =>
      if a ≠ 0 then a
      else if direction = "long" then entry_price * (102/100) else entry_price * (98/100)
    | Option.none =>
      if direction = "long" then entry_price * (102/100) else entry_price * (98/100)
  let stop_loss_price :=
    match stop_loss_input with
    | some s => s
    | Option.none =>
      if direction = "long" then entry_price * (97/100) else entry_price * (103/100)
  if direction = "long" then
    (if activation_price ≤ entry_price then entry_price * (102/100) else activation_price,
     if stop_loss_price ≥ entry_price then entry_price * (97/100) else stop_loss_price)
  else
    (if activation_price ≥ entry_price then entry_price * (98/100) else activation_price,
     if stop_loss_price ≤ entry_price then entry_price * (103/100) else stop_loss_price)

/-- Exchange-side observations consumed by one trailing-stop strategy call.
The `*_ok` flags are the exchange's accept/reject verdicts for the successive
order attempts (retries that re-submit identical parameters are collapsed). -/
structure TrailingEnv where
  available_balance : ℚ
  current_price : ℚ
  lot : Option LotFilter
  is_hedge_mode : Bool
  position_entry : ℚ
  entry_ok : Bool
  trailing_ok : Bool
  fallback_ok : Bool
  lastresort_ok : Bool
  klines : List Candle
deriving Repr

/-- STEP 2.1 of `place_trailing_stop_strategy`: resolve the raw order
quantity from the payload (percentage string of balance, or config sizing
for an absent/invalid quantity).  A direct numeric quantity reaches the
post-rounding log line, which reads the `order_amount` local that this path
never assigns — the resulting `NameError` aborts the whole call (caught by
the top-level handler). -/
def trailing_quantity (available_balance current_price leverage order_size_percentage : ℚ)
    (quantity_input : Option PyVal) : Except String ℚ :=
  let config_qty :=
    available_balance * (order_size_percentage / 100) * leverage / current_price
  match quantity_input with
  | Option.none => .ok config_qty
  | some (.str s) =>
    if sEndsWith s "%" then
      match parseDecimal (rstripPercent s) with
      | some percentage => .ok (available_balance * (percentage / 100) * leverage / current_price)
      | Option.none => .ok config_qty
    else
      match parseDecimal s with
      | some _ => .error "NameError: order_amount is not defined"
      | Option.none => .ok config_qty
  | some (.num _) => .error "NameError: order_amount is not defined"

/-- `BinanceHandler.place_trailing_stop_strategy`: payload parsing, sizing,
the market entry order, activation/stop resolution, the trailing-stop algo
order, and on its rejection the fallback `STOP_MARKET` and last-resort TP/SL
chain.  Position validation (STEP 1.5), which builds no payload, is modelled
separately by `validate_position_request`. -/
def place_trailing_stop_strategy (config : String → Option ℚ) (atr_period : ℤ)
    (leverage order_size_percentage : ℚ) (env : TrailingEnv)
    (data : TrailingPayload) : FlowResult :=
  match trailing_parse data with
  | .error e => ⟨[], .error e⟩
  | .ok inp =>
    let available_balance :=
      if env.available_balance ≤ 0 then 1000 else env.available_balance
    if env.current_price ≤ 0 then ⟨[], .error "Failed to get current price"⟩
    else
      match trailing_quantity available_balance env.current_price leverage
          order_size_percentage data.quantity with
      | .error e => ⟨[], .error e⟩
      | .ok raw_quantity =>
        let executed_qty := round_quantity_to_precision env.lot raw_quantity
        let binance_side := if inp.direction = "long" then "BUY" else "SELL"
        let position_side := directionPositionSide inp.direction
        let entry := addPositionSide env.is_hedge_mode position_side
          { symbol := inp.symbol, side := binance_side, type := "MARKET",
            quantity := some executed_qty }
        if ¬ env.entry_ok then ⟨[entry], .error "Entry order failed"⟩
        else
          let entry_price :=
            if env.position_entry > 0 then env.position_entry else env.current_price
          let (activation_price, stop_loss_price) :=
            resolveActivationStop inp.direction entry_price
              inp.activation_price_input inp.stop_loss_price
          let trailing := addPositionSide env.is_hedge_mode position_side
            { symbol := inp.symbol, side := inp.trailing_side,
              type := "TRAILING_STOP_MARKET", quantity := some executed_qty,
              callbackRate := some inp.callback_rate,
              activationPrice := some activation_price,
              workingType := some inp.working_type }
          if env.trailing_ok then ⟨[entry, trailing], .ok ()⟩
          else if stop_loss_price ≤ 0 then
            ⟨[entry, trailing], .error "Trailing stop failed and no fallback stop loss provided"⟩
          else
            let fallback := addPositionSide env.is_hedge_mode position_side
              { symbol := inp.symbol, side := inp.trailing_side, type := "STOP_MARKET",
                quantity := some executed_qty, stopPrice := some stop_loss_price }
            if env.fallback_ok then ⟨[entry, trailing, fallback], .ok ()⟩
            else
              let actual_entry_price :=
                if env.position_entry > 0 then env.position_entry else entry_price
              let atr_value := get_atr env.klines atr_period
              let failRes : FlowResult :=
                ⟨[entry, trailing, fallback], .error "Both trailing stop and fallback failed"⟩
              if atr_value > 0 then
                match calculate_tp_sl_prices config inp.symbol actual_entry_price
                    atr_value inp.direction with
                | .error _ => failRes
                | .ok (tp_price, sl_price) =>
                  if validate_tp_sl_logic inp.symbol inp.direction actual_entry_price
                      tp_price sl_price then
                    let tp_side := if inp.direction = "long" then "SELL" else "BUY"
                    let tpO := addPositionSide env.is_hedge_mode position_side
                      { symbol := inp.symbol, side := tp_side, type := "TAKE_PROFIT_MARKET",
                        stopPrice := some (round_to_price_step inp.symbol tp_price),
                        closePosition := true }
                    let slO := addPositionSide env.is_hedge_mode position_side
                      { symbol := inp.symbol, side := tp_side, type := "STOP_MARKET",
                        stopPrice := some (round_to_price_step inp.symbol sl_price),
                        closePosition := true }
                    if env.lastresort_ok then
                      ⟨[entry, trailing, fallback, tpO, slO], .ok ()⟩
                    else
                      ⟨[entry, trailing, fallback, tpO, slO],
                       .error "Both trailing stop and fallback failed"⟩
                  else failRes
              else failRes

/-! ## Witness fixtures -/

/-- Eleven identical candles used by witnesses: enough data for ATR with
period 1, giving ATR = 1. -/
def witnessKlines : List Candle :=
  [⟨2, 1, 1⟩, ⟨2, 1, 1⟩, ⟨2, 1, 1⟩, ⟨2, 1, 1⟩, ⟨2, 1, 1⟩, ⟨2, 1, 1⟩,
   ⟨2, 1, 1⟩, ⟨2, 1, 1⟩, ⟨2, 1, 1⟩, ⟨2, 1, 1⟩, ⟨2, 1, 1⟩]

/-- A config with a broken (negative) ETH TP multiplier, used to exhibit a
failing TP/SL validation. -/
def badethConfig : String → Option ℚ :=
  fun k => if k = "eth_atr_tp_multiplier" then some (-1) else Option.none

/-- A trailing-stop payload with an out-of-band callback rate of 6.0
(the exchange band, and the repository's own tests, say valid rates are
`[0.1, 5.0]`). -/
def payloadRate6 : TrailingPayload :=
  { symbol := "BTCUSDT", side := "BUY", action := "open",
    callbackRate := some (.num 6) }

/-- A trailing-stop payload with the percent-suffixed callback rate "1.5%",
which the repository's tests expect to parse to 1.5. -/
def payloadRatePct : TrailingPayload :=
  { symbol := "UNIUSDT", side := "BUY", action := "open",
    callbackRate := some (.str "1.5%") }

/-- An exchange environment in which everything succeeds. -/
def happyTrailingEnv : TrailingEnv :=
  ⟨1000, 100, Option.none, false, 0, true, true, true, true, []⟩

/-! ## Helper lemmas -/

/-- Anything surviving an association-list filter satisfies the filter. -/
theorem alookupQ_filter_prop (p : String × ℚ → Bool) (l : List (String × ℚ))
    (k : String) (ts : ℚ) (h : alookupQ (l.filter p) k = some ts) : p (k, ts) = true := by
  induction l with
  | nil => simp [alookupQ] at h
  | cons kv rest ih =>
    by_cases hp : p kv = true
    · rw [List.filter_cons_of_pos hp] at h
      rw [alookupQ] at h
      split at h
      · rename_i heq
        obtain ⟨rfl, rfl⟩ : kv.1 = k ∧ kv.2 = ts := by
          constructor
          · exact heq
          · exact Option.some.inj h
        simpa using hp
      · exact ih h
    · rw [List.filter_cons_of_neg (by simpa using hp)] at h
      exact ih h

/-- The hedge-mode guard does not change the quantity field. -/
theorem addPositionSide_quantity (hedge : Bool) (ps : String) (o : OrderParams) :
    (addPositionSide hedge ps o).quantity = o.quantity := by
  cases hedge <;> simp [addPositionSide]

/-- The position-side field of a payload after the hedge-mode guard. -/
theorem addPositionSide_positionSide (hedge : Bool) (ps : String) (o : OrderParams)
    (h : o.positionSide = Option.none) :
    (addPositionSide hedge ps o).positionSide = if hedge then some ps else Option.none := by
  cases hedge <;> simp [addPositionSide, h]

/-! ## C10 -/

/-- C10: for every position-side string whose lowercase form is neither
"long" nor "short", `validate_tp_sl_logic` returns `True` for all prices —
the directional validation passes vacuously (fail-open). -/
theorem C10_validate_fail_open (coin_symbol position_side : String)
    (entry_price tp_price sl_price : ℚ)
    (h1 : slower position_side ≠ "long") (h2 : slower position_side ≠ "short") :
    validate_tp_sl_logic coin_symbol position_side entry_price tp_price sl_price = true := by
  rw [validate_tp_sl_logic]
  simp only [h1, h2, if_false]

/-- Witness for C10 at `position_side = "BOTH"` with a TP below and an SL
above the entry — invalid for a long, yet accepted. -/
theorem C10_validate_fail_open_witness :
    validate_tp_sl_logic "BTCUSDT" "BOTH" 100 50 150 = true :=
  C10_validate_fail_open "BTCUSDT" "BOTH" 100 50 150 (by decide) (by decide)

/-! ## C6 -/

/-- C6: ATR computation is total and fail-safe — (1) a period outside
`[1, 100]` is replaced by 14; (2) with fewer than `period + 10` candles the
result is 0; (3) the result is never negative (a non-positive smoothed value
is returned as 0); (4) downstream, a non-positive ATR makes the TP/SL phase
place no protective order. -/
theorem C6_atr_fail_safe :
    (∀ (klines : List Candle) (period : ℤ), (period < 1 ∨ period > 100) →
       get_atr klines period = get_atr klines 14)
    ∧ (∀ (klines : List Candle) (period : ℤ), 1 ≤ period → period ≤ 100 →
         (klines.length : ℤ) < period + 10 → get_atr klines period = 0)
    ∧ (∀ (klines : List Candle) (period : ℤ), 0 ≤ get_atr klines period)
    ∧ (∀ (config : String → Option ℚ) (atr_period : ℤ) (klines : List Candle)
         (symbol direction : String) (current_price : ℚ) (hedge : Bool) (ps : String),
         get_atr klines atr_period ≤ 0 →
         tp_sl_phase config atr_period klines symbol direction current_price hedge ps = []) := by
  refine ⟨?_, ?_, ?_, ?_⟩
  · intro klines period h
    rw [get_atr.eq_def, get_atr.eq_def]
    simp only [if_pos h]
    norm_num
  · intro klines period h1 h2 h3
    rw [get_atr.eq_def]
    have hclamp : ¬ (period < 1 ∨ period > 100) := by omega
    simp only [if_neg hclamp]
    cases klines with
    | nil => rfl
    | cons c rest => simp only [if_pos h3]
  · intro klines period
    rw [get_atr.eq_def]
    cases klines with
    | nil => simp
    | cons c rest =>
      dsimp only
      repeat' split
      all_goals first
        | exact le_rfl
        | (rename_i h; push_neg at h; exact le_of_lt h)
  · intro config atr_period klines symbol direction current_price hedge ps h
    rw [tp_sl_phase]
    split
    · rfl
    · simp only [if_pos h]

/-- Witness for C6: an out-of-range period `0` behaves like 14; three candles
are insufficient for period 14 and yield ATR 0; the TP/SL phase then places
nothing. -/
theorem C6_atr_fail_safe_witness :
    get_atr [⟨2, 1, 1⟩, ⟨2, 1, 1⟩, ⟨2, 1, 1⟩] 0 = get_atr [⟨2, 1, 1⟩, ⟨2, 1, 1⟩, ⟨2, 1, 1⟩] 14
    ∧ get_atr [⟨2, 1, 1⟩, ⟨2, 1, 1⟩, ⟨2, 1, 1⟩] 14 = 0
    ∧ tp_sl_phase (fun _ => Option.none) 14 [⟨2, 1, 1⟩, ⟨2, 1, 1⟩, ⟨2, 1, 1⟩]
        "ETHUSDT" "long" 2000 false "LONG" = [] := by
  have h2 : get_atr [⟨2, 1, 1⟩, ⟨2, 1, 1⟩, ⟨2, 1, 1⟩] 14 = 0 :=
    C6_atr_fail_safe.2.1 _ 14 (by norm_num) (by norm_num) (by norm_num)
  refine ⟨C6_atr_fail_safe.1 _ 0 (by norm_num), h2, ?_⟩
  exact C6_atr_fail_safe.2.2.2 _ 14 _ "ETHUSDT" "long" 2000 false "LONG" (le_of_eq h2)

/-! ## C7 -/

/-- C7: whenever `calculate_tp_sl_prices` succeeds, a long entry yields
`tp = entry + atr * tp_mult` and `sl = entry - atr * sl_mult`, a short entry
yields the mirrored prices, each snapped to the per-symbol price step; and an
unknown symbol resolves to the default coarse step `0.01`. -/
theorem C7_tp_sl_derivation (config : String → Option ℚ) (coin_symbol : String)
    (current_price atr_value tp sl : ℚ) :
    (calculate_tp_sl_prices config coin_symbol current_price atr_value "long" = .ok (tp, sl) →
       tp = round_to_price_step coin_symbol (current_price + atr_value *
         resolveMultiplier config (extract_coin_type coin_symbol ++ "_atr_tp_multiplier")
           default_tp_multiplier)
       ∧ sl = round_to_price_step coin_symbol (current_price - atr_value *
         resolveMultiplier config (extract_coin_type coin_symbol ++ "_atr_sl_multiplier")
           default_sl_multiplier))
    ∧ (calculate_tp_sl_prices config coin_symbol current_price atr_value "short" = .ok (tp, sl) →
       tp = round_to_price_step coin_symbol (current_price - atr_value *
         resolveMultiplier config (extract_coin_type coin_symbol ++ "_atr_tp_multiplier")
           default_tp_multiplier)
       ∧ sl = round_to_price_step coin_symbol (current_price + atr_value *
         resolveMultiplier config (extract_coin_type coin_symbol ++ "_atr_sl_multiplier")
           default_sl_multiplier))
    ∧ (alookupQ price_steps (supper coin_symbol) = Option.none →
       getPriceStep coin_symbol = 1/100) := by
  refine ⟨?_, ?_, ?_⟩
  · intro h
    rw [calculate_tp_sl_prices] at h
    simp only [show slower "long" = "long" from by decide, reduceIte] at h
    split at h
    · exact absurd h (by simp)
    · have h2 := Except.ok.inj h
      exact ⟨(congrArg Prod.fst h2).symm, (congrArg Prod.snd h2).symm⟩
  · intro h
    rw [calculate_tp_sl_prices] at h
    simp only [show slower "short" = "short" from by decide,
      show (("short" : String) = "long") = False from by simp, reduceIte] at h
    split at h
    · exact absurd h (by simp)
    · have h2 := Except.ok.inj h
      exact ⟨(congrArg Prod.fst h2).symm, (congrArg Prod.snd h2).symm⟩
  · intro h
    rw [getPriceStep, h]
    rfl

/-- Witness for C7: the spec's end-to-end example — ETHUSDT long at entry
2000 with ATR 20 and default multipliers yields TP 2050 and SL 1940. -/
theorem C7_tp_sl_derivation_witness :
    calculate_tp_sl_prices (fun _ => Option.none) "ETHUSDT" 2000 20 "long" = .ok (2050, 1940)
    ∧ (2050 : ℚ) = round_to_price_step "ETHUSDT" (2000 + 20 *
        resolveMultiplier (fun _ => Option.none) (extract_coin_type "ETHUSDT" ++ "_atr_tp_multiplier")
          default_tp_multiplier)
    ∧ (1940 : ℚ) = round_to_price_step "ETHUSDT" (2000 - 20 *
        resolveMultiplier (fun _ => Option.none) (extract_coin_type "ETHUSDT" ++ "_atr_sl_multiplier")
          default_sl_multiplier) := by
  have hcalc : calculate_tp_sl_prices (fun _ => Option.none) "ETHUSDT" 2000 20 "long"
      = .ok (2050, 1940) := by
    have hstep : getPriceStep "ETHUSDT" = 1/100 := by
      simp +decide [getPriceStep, price_steps, alookupQ]
    norm_num [calculate_tp_sl_prices, resolveMultiplier, default_tp_multiplier,
      default_sl_multiplier, round_to_price_step, hstep, roundHalfEven, roundToDigits,
      show slower "long" = "long" from by decide]
  obtain ⟨h1, h2⟩ := (C7_tp_sl_derivation (fun _ => Option.none) "ETHUSDT" 2000 20 2050 1940).1 hcalc
  exact ⟨hcalc, h1, h2⟩

/-! ## C3 -/

/-- C3: TP/SL validation is directionally fail-closed — for a long entry it
accepts exactly when `tp > entry ∧ sl < entry`, for a short entry exactly
when `tp < entry ∧ sl > entry`; when validation fails on the computed prices
the TP/SL phase places no protective order, and the `place_order` flow still
returns the entry-order result (the entry order stands). -/
theorem C3_tp_sl_fail_closed (symbol : String) (entry tp sl : ℚ) :
    (validate_tp_sl_logic symbol "long" entry tp sl = true ↔ (tp > entry ∧ sl < entry))
    ∧ (validate_tp_sl_logic symbol "short" entry tp sl = true ↔ (tp < entry ∧ sl > entry))
    ∧ (∀ (config : String → Option ℚ) (atr_period : ℤ) (klines : List Candle)
         (direction : String) (current_price : ℚ) (hedge : Bool) (ps : String) (tp' sl' : ℚ),
         calculate_tp_sl_prices config symbol current_price (get_atr klines atr_period)
           direction = .ok (tp', sl') →
         validate_tp_sl_logic symbol direction current_price tp' sl' = false →
         tp_sl_phase config atr_period klines symbol direction current_price hedge ps = [])
    ∧ (∀ (config : String → Option ℚ) (atr_period : ℤ) (leverage pct : ℚ) (env : ExchangeEnv)
         (side order_type : String) (q : ℚ) (a d : String),
         sSplitChar '_' side = [a, d] →
         (place_order_flow config atr_period leverage pct env symbol side order_type
            (some q)).result = .ok ()) := by
  refine ⟨?_, ?_, ?_, ?_⟩
  · rw [validate_tp_sl_logic]
    simp only [show slower "long" = "long" from by decide, if_pos rfl]
    constructor
    · intro h
      by_cases h1 : tp ≤ entry
      · simp [h1] at h
      · by_cases h2 : sl ≥ entry
        · simp [h1, h2] at h
        · exact ⟨lt_of_not_le h1, lt_of_not_le h2⟩
    · intro ⟨h1, h2⟩
      simp [not_le.mpr h1, not_le.mpr h2]
  · rw [validate_tp_sl_logic]
    simp only [show slower "short" = "short" from by decide,
      show ("short" : String) ≠ "long" from by decide, reduceIte]
    constructor
    · intro h
      by_cases h1 : tp ≥ entry
      · simp [h1] at h
      · by_cases h2 : sl ≤ entry
        · simp [h1, h2] at h
        · exact ⟨lt_of_not_le h1, lt_of_not_le h2⟩
    · intro ⟨h1, h2⟩
      simp [not_le.mpr h1, not_le.mpr h2]
  · intro config atr_period klines direction current_price hedge ps tp' sl' hcalc hval
    rw [tp_sl_phase]
    by_cases hcp : current_price ≤ 0
    · rw [if_pos hcp]
    · rw [if_neg hcp]
      dsimp only
      by_cases hatr : get_atr klines atr_period ≤ 0
      · rw [if_pos hatr]
      · rw [if_neg hatr, hcalc]
        dsimp only
        simp only [hval, reduceIte]
  · intro config atr_period leverage pct env side order_type q a d hside
    rw [place_order_flow.eq_def, hside]

/-- Witness for C3: with a misconfigured negative TP multiplier, a long entry
at 2000 with ATR 1 computes TP 1999 < entry; validation fails, the TP/SL
phase places nothing, and the `place_order` flow still returns the entry
result. -/
theorem C3_tp_sl_fail_closed_witness :
    calculate_tp_sl_prices badethConfig "ETHUSDT" 2000 (get_atr witnessKlines 1) "long"
      = .ok (1999, 1997)
    ∧ validate_tp_sl_logic "ETHUSDT" "long" 2000 1999 1997 = false
    ∧ tp_sl_phase badethConfig 1 witnessKlines "ETHUSDT" "long" 2000 false "LONG" = []
    ∧ (place_order_flow badethConfig 1 10 10 ⟨1000, 100, Option.none, false, witnessKlines, 0⟩
         "ETHUSDT" "open_long" "MARKET" (some 1)).result = .ok () := by
  have hatr : get_atr witnessKlines 1 = 1 := by
    norm_num [get_atr, witnessKlines, trueRanges, max_def]
  have h1 : calculate_tp_sl_prices badethConfig "ETHUSDT" 2000 (get_atr witnessKlines 1) "long"
      = .ok (1999, 1997) := by
    rw [hatr]
    have hstep : getPriceStep "ETHUSDT" = 1/100 := by
      simp +decide [getPriceStep, price_steps, alookupQ]
    norm_num +decide [calculate_tp_sl_prices, badethConfig, resolveMultiplier,
      default_sl_multiplier, round_to_price_step, hstep, roundHalfEven, roundToDigits,
      show slower "long" = "long" from by decide,
      show extract_coin_type "ETHUSDT" ++ "_atr_tp_multiplier" = "eth_atr_tp_multiplier"
        from by decide,
      show extract_coin_type "ETHUSDT" ++ "_atr_sl_multiplier" = "eth_atr_sl_multiplier"
        from by decide]
  have h2 : validate_tp_sl_logic "ETHUSDT" "long" 2000 1999 1997 = false := by
    norm_num [validate_tp_sl_logic, show slower "long" = "long" from by decide]
  refine ⟨h1, h2, ?_, ?_⟩
  · exact (C3_tp_sl_fail_closed "ETHUSDT" 2000 1999 1997).2.2.1 badethConfig 1 witnessKlines
      "long" 2000 false "LONG" 1999 1997 h1 h2
  · exact (C3_tp_sl_fail_closed "ETHUSDT" 2000 1999 1997).2.2.2 badethConfig 1 10 10
      ⟨1000, 100, Option.none, false, witnessKlines, 0⟩ "open_long" "MARKET" 1 "open" "long"
      (by decide)

/-! ## C4 -/

/-- The freshly recorded key maps to the current time. -/
theorem record_lookup_self (v : PositionValidator) (s d a : String) (now : ℚ) :
    alookupQ (record_order_request v s d a now).recent_orders (orderKey s d a) = some now := by
  rw [record_order_request]
  simp [List.filter_cons, alookupQ]

/-- Every entry surviving the record-time purge is at most 60 seconds old. -/
theorem record_purged (v : PositionValidator) (s d a : String) (now : ℚ) (k : String) (ts : ℚ)
    (h : alookupQ (record_order_request v s d a now).recent_orders k = some ts) :
    now - ts ≤ 60 := by
  rw [record_order_request] at h
  have := alookupQ_filter_prop _ _ _ _ h
  simp at this
  linarith

/-- Every `validate_position_request` call either rejects and leaves the
ledger untouched, or approves and records the request. -/
theorem validate_position_request_cases (v : PositionValidator)
    (symbol direction action : String) (positions : List RawPosition) (auto : Bool) (now : ℚ) :
    (∃ r, validate_position_request v symbol direction action positions auto now = (r, v)
       ∧ r.allowed = false)
    ∨ (∃ r, validate_position_request v symbol direction action positions auto now
         = (r, record_order_request v symbol direction action now) ∧ r.allowed = true) := by
  rw [validate_position_request]
  by_cases hc : check_duplicate_order v symbol direction action now = false
  · rw [if_pos hc]
    exact Or.inl ⟨_, rfl, rfl⟩
  · rw [if_neg hc]
    dsimp only
    by_cases hA : (decide_request symbol direction action
        (analyze_symbol_positions symbol positions) auto).allowed = true
    · rw [if_pos hA]
      exact Or.inr ⟨_, rfl, hA⟩
    · rw [if_neg hA]
      exact Or.inl ⟨_, rfl, Bool.not_eq_true _ ▸ hA⟩

/-- C4: duplicate suppression — a call whose key was approved less than 5
seconds ago is rejected with the ledger unchanged; a key at least 5 seconds
old passes the duplicate check; the ledger is written only on approval (an
approved call maps the key to `now`, a rejected call leaves the state
untouched); and after an approval every surviving ledger entry is at most 60
seconds old (older entries are purged). -/
theorem C4_duplicate_suppression (v : PositionValidator) (symbol direction action : String)
    (positions : List RawPosition) (auto : Bool) (now t₀ : ℚ) :
    (alookupQ v.recent_orders (orderKey symbol direction action) = some t₀ → now - t₀ < 5 →
       (validate_position_request v symbol direction action positions auto now).1.allowed = false
       ∧ (validate_position_request v symbol direction action positions auto now).2 = v)
    ∧ (alookupQ v.recent_orders (orderKey symbol direction action) = some t₀ → ¬ (now - t₀ < 5) →
       check_duplicate_order v symbol direction action now = true)
    ∧ ((validate_position_request v symbol direction action positions auto now).1.allowed = true →
       alookupQ (validate_position_request v symbol direction action positions auto now).2.recent_orders
         (orderKey symbol direction action) = some now)
    ∧ ((validate_position_request v symbol direction action positions auto now).1.allowed = false →
       (validate_position_request v symbol direction action positions auto now).2 = v)
    ∧ ((validate_position_request v symbol direction action positions auto now).1.allowed = true →
       ∀ (k : String) (ts : ℚ),
         alookupQ (validate_position_request v symbol direction action positions auto now).2.recent_orders
           k = some ts → now - ts ≤ 60) := by
  refine ⟨?_, ?_, ?_, ?_, ?_⟩
  · intro h1 h2
    have hc : check_duplicate_order v symbol direction action now = false := by
      rw [check_duplicate_order, h1]
      simp [order_cooldown, h2]
    rw [validate_position_request, if_pos hc]
    exact ⟨rfl, rfl⟩
  · intro h1 h2
    rw [check_duplicate_order, h1]
    simp [order_cooldown, h2]
  · intro hall
    rcases validate_position_request_cases v symbol direction action positions auto now with
      ⟨r, heq, hr⟩ | ⟨r, heq, hr⟩
    · rw [heq] at hall
      exact absurd hall (by simp [hr])
    · rw [heq]
      exact record_lookup_self v symbol direction action now
  · intro hall
    rcases validate_position_request_cases v symbol direction action positions auto now with
      ⟨r, heq, hr⟩ | ⟨r, heq, hr⟩
    · rw [heq]
    · rw [heq] at hall
      exact absurd hall (by simp [hr])
  · intro hall k ts h
    rcases validate_position_request_cases v symbol direction action positions auto now with
      ⟨r, heq, hr⟩ | ⟨r, heq, hr⟩
    · rw [heq] at hall
      exact absurd hall (by simp [hr])
    · rw [heq] at h
      exact record_purged v symbol direction action now k ts h

/-- Witness for C4: a key approved 3 seconds ago is rejected and the ledger
is unchanged; the same key 100 seconds later passes the duplicate check. -/
theorem C4_duplicate_suppression_witness :
    (validate_position_request ⟨[("BTCUSDT_LONG_open", 100)]⟩ "BTCUSDT" "LONG" "open"
       [] true 103).1.allowed = false
    ∧ (validate_position_request ⟨[("BTCUSDT_LONG_open", 100)]⟩ "BTCUSDT" "LONG" "open"
       [] true 103).2 = ⟨[("BTCUSDT_LONG_open", 100)]⟩
    ∧ check_duplicate_order ⟨[("BTCUSDT_LONG_open", 100)]⟩ "BTCUSDT" "LONG" "open" 200 = true := by
  have hl : alookupQ (PositionValidator.mk [("BTCUSDT_LONG_open", 100)]).recent_orders
      (orderKey "BTCUSDT" "LONG" "open") = some 100 := by
    rw [alookupQ]
    simp +decide [orderKey]
  obtain ⟨h1, h2⟩ := (C4_duplicate_suppression ⟨[("BTCUSDT_LONG_open", 100)]⟩ "BTCUSDT" "LONG"
    "open" [] true 103 100).1 hl (by norm_num)
  refine ⟨h1, h2, ?_⟩
  exact (C4_duplicate_suppression ⟨[("BTCUSDT_LONG_open", 100)]⟩ "BTCUSDT" "LONG"
    "open" [] true 200 100).2.1 hl (by norm_num)

/-! ## C5 -/

/-- C5: open-request validation — an existing same-direction position always
rejects; an opposite-direction position with auto-switch enabled approves
with a `close_opposite` action listing exactly the opposing positions, and
with auto-switch disabled rejects; and position analysis reports each
position at exactly the absolute value of its exchange-reported size. -/
theorem C5_auto_switch (symbol direction : String) (existing : List AnalyzedPosition)
    (auto : Bool) (positions : List RawPosition) :
    ((existing.filter (fun p => p.side = slower direction)) ≠ [] →
       (validate_open_position symbol direction existing auto).allowed = false)
    ∧ ((existing.filter (fun p => p.side = slower direction)) = [] →
       (existing.filter (fun p => ¬ p.side = slower direction)) ≠ [] → auto = true →
       (validate_open_position symbol direction existing auto).allowed = true
       ∧ (validate_open_position symbol direction existing auto).action_required
           = some (.close_opposite (existing.filter (fun p => ¬ p.side = slower direction))
               direction))
    ∧ ((existing.filter (fun p => p.side = slower direction)) = [] →
       (existing.filter (fun p => ¬ p.side = slower direction)) ≠ [] → auto = false →
       (validate_open_position symbol direction existing auto).allowed = false
       ∧ (validate_open_position symbol direction existing auto).action_required = Option.none)
    ∧ ((analyze_symbol_positions symbol positions).map (fun p => (p.symbol, p.side, p.size))
        = (positions.filter (fun p => p.symbol = symbol ∧ |p.positionAmt| > 0)).map
            (fun p => (p.symbol, slower (supper p.positionSide), |p.positionAmt|))) := by
  refine ⟨?_, ?_, ?_, ?_⟩
  · intro hsame
    rw [validate_open_position]
    rw [if_pos (by simpa [List.isEmpty_iff] using hsame)]
  · intro hsame hopp hauto
    rw [validate_open_position]
    rw [if_neg (by simp [List.isEmpty_iff, hsame])]
    rw [if_pos (by simpa [List.isEmpty_iff] using hopp)]
    rw [if_neg (by simp [hauto])]
    exact ⟨rfl, rfl⟩
  · intro hsame hopp hauto
    rw [validate_open_position]
    rw [if_neg (by simp [List.isEmpty_iff, hsame])]
    rw [if_pos (by simpa [List.isEmpty_iff] using hopp)]
    rw [if_pos (by simp [hauto])]
    exact ⟨rfl, rfl⟩
  · rw [analyze_symbol_positions, List.map_map]
    rfl

/-- Witness for C5: an existing LONG position of size 0.5 on BTCUSDT, an
incoming SHORT open request — approved with `close_opposite` listing the
LONG position when auto-switch is on, rejected when off; and the analysis
maps a raw `positionAmt` of `-0.5` to size `0.5`. -/
theorem C5_auto_switch_witness :
    (validate_open_position "BTCUSDT" "SHORT"
        [⟨"BTCUSDT", "long", 1/2, 50000, 0, 10, "cross"⟩] true).allowed = true
    ∧ (validate_open_position "BTCUSDT" "SHORT"
        [⟨"BTCUSDT", "long", 1/2, 50000, 0, 10, "cross"⟩] true).action_required
        = some (.close_opposite [⟨"BTCUSDT", "long", 1/2, 50000, 0, 10, "cross"⟩] "SHORT")
    ∧ (validate_open_position "BTCUSDT" "SHORT"
        [⟨"BTCUSDT", "long", 1/2, 50000, 0, 10, "cross"⟩] false).allowed = false
    ∧ (validate_open_position "BTCUSDT" "SHORT"
        [⟨"BTCUSDT", "long", 1/2, 50000, 0, 10, "cross"⟩] true).allowed = true
    ∧ (analyze_symbol_positions "BTCUSDT"
        [⟨"BTCUSDT", "LONG", -(1/2), 50000, 0, 10, "cross"⟩]).map (fun p => (p.symbol, p.side, p.size))
        = [("BTCUSDT", "long", 1/2)] := by
  have hfs : ([⟨"BTCUSDT", "long", 1/2, 50000, 0, 10, "cross"⟩] :
      List AnalyzedPosition).filter (fun p => p.side = slower "SHORT") = [] := by
    simp +decide [List.filter]
  have hfo : ([⟨"BTCUSDT", "long", 1/2, 50000, 0, 10, "cross"⟩] :
      List AnalyzedPosition).filter (fun p => ¬ p.side = slower "SHORT")
      = [⟨"BTCUSDT", "long", 1/2, 50000, 0, 10, "cross"⟩] := by
    simp +decide [List.filter]
  obtain ⟨h1, h2⟩ := (C5_auto_switch "BTCUSDT" "SHORT"
    [⟨"BTCUSDT", "long", 1/2, 50000, 0, 10, "cross"⟩] true []).2.1 hfs (by rw [hfo]; simp) rfl
  obtain ⟨h3, _⟩ := (C5_auto_switch "BTCUSDT" "SHORT"
    [⟨"BTCUSDT", "long", 1/2, 50000, 0, 10, "cross"⟩] false []).2.2.1 hfs
      (by rw [hfo]; simp) rfl
  have h5 := (C5_auto_switch "BTCUSDT" "SHORT" [] true
    [⟨"BTCUSDT", "LONG", -(1/2), 50000, 0, 10, "cross"⟩]).2.2.2
  refine ⟨h1, by rw [h2, hfo], h3, h1, ?_⟩
  rw [h5]
  norm_num [List.filter]
  decide

/-! ## C8 -/

/-- Every protective payload of the TP/SL phase carries `positionSide` iff
hedge mode is on. -/
theorem tp_sl_phase_positionSide (config : String → Option ℚ) (atr_period : ℤ)
    (klines : List Candle) (symbol direction : String) (current_price : ℚ)
    (hedge : Bool) (ps : String) :
    ∀ o ∈ tp_sl_phase config atr_period klines symbol direction current_price hedge ps,
      o.positionSide = if hedge then some ps else Option.none := by
  intro o ho
  rw [tp_sl_phase] at ho
  dsimp only at ho
  repeat' split at ho
  all_goals fin_cases ho <;> exact addPositionSide_positionSide _ _ _ rfl

set_option maxHeartbeats 2000000 in
/-- Every payload of the trailing-stop strategy carries `positionSide` iff
hedge mode is on, with the position side derived from the parsed direction. -/
theorem trailing_orders_positionSide (config : String → Option ℚ) (atr_period : ℤ)
    (leverage pct : ℚ) (env : TrailingEnv) (data : TrailingPayload) (inp : TrailingInputs)
    (hparse : trailing_parse data = .ok inp) :
    ∀ o ∈ (place_trailing_stop_strategy config atr_period leverage pct env data).orders_sent,
      o.positionSide = if env.is_hedge_mode then some (directionPositionSide inp.direction)
        else Option.none := by
  intro o ho
  rw [place_trailing_stop_strategy.eq_def, hparse] at ho
  dsimp only at ho
  repeat' split at ho
  all_goals fin_cases ho <;> exact addPositionSide_positionSide _ _ _ rfl

/-- C8: position-side parameter discipline — in every payload constructed by
the standard `place_order` flow and by the trailing-stop strategy (entry, TP,
SL, trailing stop, fallback stop), `positionSide` is absent under one-way
mode and present, matching the intended direction, under hedge mode. -/
theorem C8_position_side_discipline :
    (∀ (config : String → Option ℚ) (atr_period : ℤ) (leverage pct : ℚ) (env : ExchangeEnv)
       (symbol side order_type : String) (q? : Option ℚ) (a d : String),
       sSplitChar '_' side = [a, d] →
       ∀ o ∈ (place_order_flow config atr_period leverage pct env symbol side
           order_type q?).orders_sent,
         o.positionSide
           = if env.is_hedge_mode then some (directionPositionSide d) else Option.none)
    ∧ (∀ (config : String → Option ℚ) (atr_period : ℤ) (leverage pct : ℚ) (env : TrailingEnv)
       (data : TrailingPayload) (inp : TrailingInputs),
       trailing_parse data = .ok inp →
       ∀ o ∈ (place_trailing_stop_strategy config atr_period leverage pct env data).orders_sent,
         o.positionSide
           = if env.is_hedge_mode then some (directionPositionSide inp.direction)
             else Option.none) := by
  constructor
  · intro config atr_period leverage pct env symbol side order_type q? a d hside o ho
    rw [place_order_flow.eq_def, hside] at ho
    dsimp only at ho
    split at ho
    · exact absurd ho (by simp)
    · rcases List.mem_cons.mp ho with rfl | hop
      · exact addPositionSide_positionSide _ _ _ rfl
      · split at hop
        · exact tp_sl_phase_positionSide _ _ _ _ _ _ _ _ o hop
        · exact absurd hop (by simp)
  · intro config atr_period leverage pct env data inp hparse o ho
    exact trailing_orders_positionSide config atr_period leverage pct env data inp hparse o ho

/-- Witness for C8: under hedge mode, the entry payload of a concrete
`open_long` flow carries `positionSide = "LONG"`. -/
theorem C8_position_side_discipline_witness :
    sSplitChar '_' "open_long" = ["open", "long"]
    ∧ (place_order_flow (fun _ => Option.none) 14 10 10 ⟨1000, 100, Option.none, true, [], 0⟩
        "ETHUSDT" "open_long" "MARKET" (some 1)).orders_sent
        = [{ symbol := "ETHUSDT", side := "BUY", type := "MARKET", quantity := some 1,
             positionSide := some "LONG" }]
    ∧ ({ symbol := "ETHUSDT", side := "BUY", type := "MARKET", quantity := some 1,
         positionSide := some "LONG" } : OrderParams).positionSide
        = if (⟨1000, 100, Option.none, true, [], 0⟩ : ExchangeEnv).is_hedge_mode
            then some (directionPositionSide "long") else Option.none := by
  have hside : sSplitChar '_' "open_long" = ["open", "long"] := by decide
  have hq : round_quantity_to_precision Option.none 1 = 1 := by
    norm_num [round_quantity_to_precision, roundToDigits, roundHalfEven]
  have hflow : (place_order_flow (fun _ => Option.none) 14 10 10
      ⟨1000, 100, Option.none, true, [], 0⟩ "ETHUSDT" "open_long" "MARKET"
      (some 1)).orders_sent
      = [{ symbol := "ETHUSDT", side := "BUY", type := "MARKET", quantity := some 1,
           positionSide := some "LONG" }] := by
    rw [place_order_flow.eq_def, hside]
    norm_num +decide [hq, tp_sl_phase, addPositionSide, directionPositionSide]
  refine ⟨hside, hflow, ?_⟩
  exact C8_position_side_discipline.1 (fun _ => Option.none) 14 10 10
    ⟨1000, 100, Option.none, true, [], 0⟩ "ETHUSDT" "open_long" "MARKET" (some 1)
    "open" "long" hside _ (by rw [hflow]; simp)

/-! ## C9 -/

/-- C9: zero-balance sizing is a soft condition — whenever the available
balance read from the exchange is ≤ 0, both order flows behave exactly as if
the balance were the nominal testing value 1000, and the standard flow (with
a positive price) still proceeds to submit the entry order rather than
aborting. -/
theorem C9_zero_balance_soft :
    (∀ (config : String → Option ℚ) (atr_period : ℤ) (leverage pct : ℚ) (env : ExchangeEnv)
       (symbol side order_type : String) (q? : Option ℚ), env.available_balance ≤ 0 →
       place_order_flow config atr_period leverage pct env symbol side order_type q?
         = place_order_flow config atr_period leverage pct
             { env with available_balance := 1000 } symbol side order_type q?)
    ∧ (∀ (config : String → Option ℚ) (atr_period : ℤ) (leverage pct : ℚ) (env : TrailingEnv)
       (data : TrailingPayload), env.available_balance ≤ 0 →
       place_trailing_stop_strategy config atr_period leverage pct env data
         = place_trailing_stop_strategy config atr_period leverage pct
             { env with available_balance := 1000 } data)
    ∧ (∀ (config : String → Option ℚ) (atr_period : ℤ) (leverage pct : ℚ) (env : ExchangeEnv)
       (symbol side order_type : String) (a d : String),
       sSplitChar '_' side = [a, d] → env.available_balance ≤ 0 → env.current_price > 0 →
       (place_order_flow config atr_period leverage pct env symbol side order_type
          Option.none).orders_sent ≠ []) := by
  refine ⟨?_, ?_, ?_⟩
  · intro config atr_period leverage pct env symbol side order_type q? h
    rw [place_order_flow.eq_def, place_order_flow.eq_def]
    simp only [if_pos h, if_neg (show ¬ (1000 : ℚ) ≤ 0 by norm_num)]
  · intro config atr_period leverage pct env data h
    rw [place_trailing_stop_strategy.eq_def, place_trailing_stop_strategy.eq_def]
    simp only [if_pos h, if_neg (show ¬ (1000 : ℚ) ≤ 0 by norm_num)]
  · intro config atr_period leverage pct env symbol side order_type a d hside hb hp
    rw [place_order_flow.eq_def, hside]
    dsimp only
    rw [if_neg (not_le.mpr hp)]
    simp

/-- Witness for C9: a balance of −5 behaves like 1000 in both flows, and the
standard flow still submits an entry order. -/
theorem C9_zero_balance_soft_witness :
    place_order_flow (fun _ => Option.none) 14 10 10 ⟨-5, 100, Option.none, false, [], 0⟩
        "ETHUSDT" "open_long" "MARKET" Option.none
      = place_order_flow (fun _ => Option.none) 14 10 10 ⟨1000, 100, Option.none, false, [], 0⟩
        "ETHUSDT" "open_long" "MARKET" Option.none
    ∧ place_trailing_stop_strategy (fun _ => Option.none) 14 10 10
        ⟨-5, 100, Option.none, false, 0, true, true, true, true, []⟩
        { symbol := "BTCUSDT", side := "BUY", callbackRate := some (.num 1) }
      = place_trailing_stop_strategy (fun _ => Option.none) 14 10 10
        ⟨1000, 100, Option.none, false, 0, true, true, true, true, []⟩
        { symbol := "BTCUSDT", side := "BUY", callbackRate := some (.num 1) }
    ∧ (place_order_flow (fun _ => Option.none) 14 10 10 ⟨-5, 100, Option.none, false, [], 0⟩
        "ETHUSDT" "open_long" "MARKET" Option.none).orders_sent ≠ [] := by
  refine ⟨?_, ?_, ?_⟩
  · exact C9_zero_balance_soft.1 (fun _ => Option.none) 14 10 10 _ "ETHUSDT" "open_long"
      "MARKET" Option.none (by norm_num)
  · exact C9_zero_balance_soft.2.1 (fun _ => Option.none) 14 10 10 _ _ (by norm_num)
  · exact C9_zero_balance_soft.2.2 (fun _ => Option.none) 14 10 10 _ "ETHUSDT" "open_long"
      "MARKET" "open" "long" (by decide) (by norm_num) (by norm_num)

/-! ## C2 -/

/-- Counterexample for C2 as stated: with lot step 0.001 and minimum 0.001,
a raw quantity of 0.0004 is NOT a hard error — `_round_quantity_to_precision`
clamps it up to the minimum 0.001 and the `place_order` flow submits a
minimum-quantity entry order and returns success. -/
theorem C2_sizing_counterexample :
    round_quantity_to_precision (some ⟨1/1000, 1/1000, 9000000⟩) (4/10000) = 1/1000
    ∧ (place_order_flow (fun _ => Option.none) 14 10 10
        ⟨1000, 100, some ⟨1/1000, 1/1000, 9000000⟩, false, [], 0⟩
        "BTCUSDT" "open_long" "MARKET" (some (4/10000))).orders_sent
      = [{ symbol := "BTCUSDT", side := "BUY", type := "MARKET", quantity := some (1/1000) }]
    ∧ (place_order_flow (fun _ => Option.none) 14 10 10
        ⟨1000, 100, some ⟨1/1000, 1/1000, 9000000⟩, false, [], 0⟩
        "BTCUSDT" "open_long" "MARKET" (some (4/10000))).result = .ok () := by
  have hden : ((1 : ℚ)/1000).den = 1000 := by norm_num
  have hsp : stepPrecision (1/1000) = 3 := by
    rw [stepPrecision, hden]
    decide
  have hq : round_quantity_to_precision (some ⟨1/1000, 1/1000, 9000000⟩) (4/10000)
      = 1/1000 := by
    rw [round_quantity_to_precision]
    dsimp only
    rw [hsp]
    norm_num [roundHalfEven, roundToDigits]
  have hside : sSplitChar '_' "open_long" = ["open", "long"] := by decide
  have hq' : round_quantity_to_precision (some ⟨1/1000, 1/1000, 9000000⟩) (1/2500)
      = 1/1000 := by
    rw [show (1/2500 : ℚ) = 4/10000 by norm_num]
    exact hq
  refine ⟨hq, ?_, ?_⟩
  · rw [place_order_flow.eq_def, hside]
    norm_num +decide [hq, hq', tp_sl_phase, addPositionSide, directionPositionSide]
  · rw [place_order_flow.eq_def, hside]

/-- C2 (amended): the computed quantity is snapped to the exchange lot step
and then clamped into `[minQty, maxQty]` — a quantity that rounds to ≤ 0 or
below the symbol's minimum is raised to the minimum tradable quantity rather
than raising a sizing error, and the flow still submits the entry order with
the clamped quantity. -/
theorem C2_quantity_clamped (f : LotFilter) (quantity : ℚ) (h : f.minQty ≤ f.maxQty) :
    (round_quantity_to_precision (some f) quantity
      = max f.minQty (min f.maxQty (roundToDigits
          ((roundHalfEven (quantity / f.stepSize) : ℚ) * f.stepSize) (stepPrecision f.stepSize)))
     ∧ f.minQty ≤ round_quantity_to_precision (some f) quantity)
    ∧ (∀ (config : String → Option ℚ) (atr_period : ℤ) (leverage pct : ℚ) (env : ExchangeEnv)
       (symbol side order_type : String) (a d : String), sSplitChar '_' side = [a, d] →
       ∃ entry rest,
         (place_order_flow config atr_period leverage pct env symbol side order_type
            (some quantity)).orders_sent = entry :: rest
         ∧ entry.quantity = some (round_quantity_to_precision env.lot quantity)
         ∧ (place_order_flow config atr_period leverage pct env symbol side order_type
              (some quantity)).result = .ok ()) := by
  constructor
  · rw [round_quantity_to_precision]
    constructor
    · split_ifs with h1 h2 h3 <;> rw [max_def, min_def] <;> split_ifs <;> linarith
    · split_ifs <;> linarith
  · intro config atr_period leverage pct env symbol side order_type a d hside
    rw [place_order_flow.eq_def, hside]
    refine ⟨_, _, rfl, ?_, rfl⟩
    rw [addPositionSide_quantity]

/-- Witness for C2 (amended), at the spec's own example input: raw quantity
0.0004, step 0.001, minimum 0.001 — clamped to exactly the minimum. -/
theorem C2_quantity_clamped_witness :
    ((1 : ℚ)/1000 ≤ 9000000)
    ∧ round_quantity_to_precision (some ⟨1/1000, 1/1000, 9000000⟩) (4/10000)
       = max ((1:ℚ)/1000) (min 9000000 (roundToDigits
           ((roundHalfEven ((4/10000) / (1/1000)) : ℚ) * (1/1000)) (stepPrecision (1/1000))))
    ∧ (1:ℚ)/1000 ≤ round_quantity_to_precision (some ⟨1/1000, 1/1000, 9000000⟩) (4/10000)
    ∧ (∃ entry rest,
        (place_order_flow (fun _ => Option.none) 14 10 10
           ⟨1000, 100, some ⟨1/1000, 1/1000, 9000000⟩, false, [], 0⟩
           "BTCUSDT" "open_long" "MARKET" (some (4/10000))).orders_sent = entry :: rest
        ∧ entry.quantity = some (round_quantity_to_precision
            (some ⟨1/1000, 1/1000, 9000000⟩) (4/10000))) := by
  have h : ((1 : ℚ)/1000 : ℚ) ≤ 9000000 := by norm_num
  obtain ⟨⟨h1, h2⟩, h3⟩ := C2_quantity_clamped ⟨1/1000, 1/1000, 9000000⟩ (4/10000) h
  obtain ⟨entry, rest, he1, he2, _⟩ := h3 (fun _ => Option.none) 14 10 10
    ⟨1000, 100, some ⟨1/1000, 1/1000, 9000000⟩, false, [], 0⟩ "BTCUSDT" "open_long" "MARKET"
    "open" "long" (by decide)
  exact ⟨h, h1, h2, entry, rest, he1, he2⟩

/-! ## C1 -/

/-- C1 (code divergence): the trailing-stop flow performs a bare `float()`
conversion on `callbackRate` with no `[0.1, 5.0]` band check — a rate of 6.0
is accepted, the entry order is placed and the trailing-stop order is
submitted with `callbackRate = 6`; and the percent-suffixed string "1.5%"
makes `float()` raise, so the whole request is rejected as a type error
instead of parsing to 1.5.  Both behaviours contradict the claim (and the
repository's own `test_trailing_stop.py` expectations). -/
theorem C1_callback_rate_code_divergence :
    trailing_parse payloadRate6
      = .ok ⟨"BTCUSDT", "long", "SELL", 6, Option.none, Option.none, "MARK_PRICE"⟩
    ∧ (place_trailing_stop_strategy (fun _ => Option.none) 14 10 10 happyTrailingEnv
        payloadRate6).result = .ok ()
    ∧ ((place_trailing_stop_strategy (fun _ => Option.none) 14 10 10 happyTrailingEnv
        payloadRate6).orders_sent.map (fun o => o.callbackRate)) = [Option.none, some 6]
    ∧ trailing_parse payloadRatePct = .error "Invalid numeric values" := by
  have hparse : trailing_parse payloadRate6
      = .ok ⟨"BTCUSDT", "long", "SELL", 6, Option.none, Option.none, "MARK_PRICE"⟩ := by
    rfl
  have hq : trailing_quantity 1000 100 10 10 Option.none = .ok 10 := by
    norm_num [trailing_quantity]
  have hr : round_quantity_to_precision Option.none 10 = 10 := by
    norm_num [round_quantity_to_precision, roundToDigits, roundHalfEven]
  have hact : resolveActivationStop "long" 100 Option.none Option.none = (102, 97) := by
    norm_num +decide [resolveActivationStop]
  have hflow : place_trailing_stop_strategy (fun _ => Option.none) 14 10 10 happyTrailingEnv
      payloadRate6
      = ⟨[{ symbol := "BTCUSDT", side := "BUY", type := "MARKET", quantity := some 10 },
          { symbol := "BTCUSDT", side := "SELL", type := "TRAILING_STOP_MARKET",
            quantity := some 10, callbackRate := some 6, activationPrice := some 102,
            workingType := some "MARK_PRICE" }], .ok ()⟩ := by
    rw [place_trailing_stop_strategy.eq_def, hparse]
    norm_num +decide [happyTrailingEnv, payloadRate6, hq, hr, hact, addPositionSide,
      directionPositionSide]
  refine ⟨hparse, ?_, ?_, by rfl⟩
  · rw [hflow]
  · rw [hflow]
    rfl
